import Mathlib

/-!
Shallow embedding of `homework.py` (a Telegram homework-status polling bot)
and proofs about the claims of its specification.

Python values flowing through the program (parsed JSON, report dicts) are
modelled by the inductive `JVal`; Python exceptions by `PyExc`; fallible
Python functions by `Except PyExc _`.  The effectful collaborators
(`requests.get`, `bot.send_message`, `time.time`) are parameters: each
cycle of the poll loop receives the outcome of the HTTP fetch and the
outcomes of the successive Telegram deliveries, and returns the new loop
state together with the list of Notifier invocations it performed.
-/

namespace HomeworkBot

/-- A Python/JSON value: string, integer, list, or string-keyed dict
(association list, first match wins, keys unique in practice). -/
inductive JVal where
  | str (s : String)
  | int (n : Int)
  | list (xs : List JVal)
  | dict (kvs : List (String × JVal))
deriving Repr

mutual
/-- Decidable equality on `JVal` (structural, first component of the
mutual recursion over the nested lists). -/
def JVal.decEq : (a b : JVal) → Decidable (a = b)
  | .str a, .str b =>
    match String.decEq a b with
    | isTrue h => isTrue (by rw [h])
    | isFalse h => isFalse (fun hh => h (JVal.str.inj hh))
  | .str _, .int _ => isFalse (fun h => JVal.noConfusion h)
  | .str _, .list _ => isFalse (fun h => JVal.noConfusion h)
  | .str _, .dict _ => isFalse (fun h => JVal.noConfusion h)
  | .int _, .str _ => isFalse (fun h => JVal.noConfusion h)
  | .int a, .int b =>
    match Int.decEq a b with
    | isTrue h => isTrue (by rw [h])
    | isFalse h => isFalse (fun hh => h (JVal.int.inj hh))
  | .int _, .list _ => isFalse (fun h => JVal.noConfusion h)
  | .int _, .dict _ => isFalse (fun h => JVal.noConfusion h)
  | .list _, .str _ => isFalse (fun h => JVal.noConfusion h)
  | .list _, .int _ => isFalse (fun h => JVal.noConfusion h)
  | .list xs, .list ys =>
    match JVal.decEqList xs ys with
    | isTrue h => isTrue (by rw [h])
    | isFalse h => isFalse (fun hh => h (JVal.list.inj hh))
  | .list _, .dict _ => isFalse (fun h => JVal.noConfusion h)
  | .dict _, .str _ => isFalse (fun h => JVal.noConfusion h)
  | .dict _, .int _ => isFalse (fun h => JVal.noConfusion h)
  | .dict _, .list _ => isFalse (fun h => JVal.noConfusion h)
  | .dict xs, .dict ys =>
    match JVal.decEqDict xs ys with
    | isTrue h => isTrue (by rw [h])
    | isFalse h => isFalse (fun hh => h (JVal.dict.inj hh))

/-- Decidable equality on lists of `JVal`. -/
def JVal.decEqList : (a b : List JVal) → Decidable (a = b)
  | [], [] => isTrue rfl
  | [], _ :: _ => isFalse (fun h => List.noConfusion h)
  | _ :: _, [] => isFalse (fun h => List.noConfusion h)
  | x :: xs, y :: ys =>
    match JVal.decEq x y with
    | isTrue h1 =>
      match JVal.decEqList xs ys with
      | isTrue h2 => isTrue (by rw [h1, h2])
      | isFalse h2 => isFalse (fun h => h2 (List.cons.inj h).2)
    | isFalse h1 => isFalse (fun h => h1 (List.cons.inj h).1)

/-- Decidable equality on dict entry lists. -/
def JVal.decEqDict : (a b : List (String × JVal)) → Decidable (a = b)
  | [], [] => isTrue rfl
  | [], _ :: _ => isFalse (fun h => List.noConfusion h)
  | _ :: _, [] => isFalse (fun h => List.noConfusion h)
  | (k1, v1) :: xs, (k2, v2) :: ys =>
    match String.decEq k1 k2 with
    | isTrue hk =>
      match JVal.decEq v1 v2 with
      | isTrue hv =>
        match JVal.decEqDict xs ys with
        | isTrue h2 => isTrue (by rw [hk, hv, h2])
        | isFalse h2 => isFalse (fun h => h2 (List.cons.inj h).2)
      | isFalse hv =>
        isFalse (fun h => hv (congrArg Prod.snd (List.cons.inj h).1))
    | isFalse hk =>
      isFalse (fun h => hk (congrArg Prod.fst (List.cons.inj h).1))
end

instance : DecidableEq JVal := JVal.decEq

/-- First-match lookup in an association list keyed by strings
(Python `d[k]` / `d.get(k)` on a dict with unique keys). -/
def lookupKey {α : Type} : List (String × α) → String → Option α
  | [], _ => none
  | (k2, v) :: rest, k => if k2 = k then some v else lookupKey rest k

mutual
/-- Python `repr` of a value (used by `str` on lists and dicts). -/
def pyRepr : JVal → String
  | .str s => "\x27" ++ s ++ "\x27"
  | .int n => toString n
  | .list xs => "[" ++ pyReprList xs ++ "]"
  | .dict kvs => "\x7b" ++ pyReprDict kvs ++ "\x7d"

/-- Comma-separated reprs of list elements. -/
def pyReprList : List JVal → String
  | [] => ""
  | [x] => pyRepr x
  | x :: xs => pyRepr x ++ ", " ++ pyReprList xs

/-- Comma-separated reprs of dict entries. -/
def pyReprDict : List (String × JVal) → String
  | [] => ""
  | [(k, v)] => "\x27" ++ k ++ "\x27: " ++ pyRepr v
  | (k, v) :: rest => "\x27" ++ k ++ "\x27: " ++ pyRepr v ++ ", " ++ pyReprDict rest
end

/-- Python `str` of a value (as used by f-string interpolation). -/
def pyStr : JVal → String
  | .str s => s
  | v => pyRepr v

/-- Python truthiness of a value (`0`, `""`, `[]`, `\x7b\x7d` are falsy). -/
def truthyJ : JVal → Bool
  | .str s => s ≠ ""
  | .int n => n ≠ 0
  | .list xs => !xs.isEmpty
  | .dict kvs => !kvs.isEmpty

/-- The Python exceptions the program can raise or meet.  `typeError`,
`keyError`, `valueError`, `attributeError` and `connectionError` are
builtins; `requestException` stands for the transport errors raised by
`requests.get` (network error, timeout); `telegramError` is the bot
library's error; `emptyAPIResponse`, `telegramMessageError` and
`wrongAPIResponseCode` are the plain `Exception` subclasses imported from
the repository's `exceptions` module (declarations only, per the spec's
error taxonomy: all are ordinary catchable exceptions). -/
inductive PyExc where
  | typeError (msg : String)
  | keyError (key : String)
  | valueError (msg : String)
  | attributeError (msg : String)
  | connectionError (msg : String)
  | requestException (msg : String)
  | telegramError (msg : String)
  | emptyAPIResponse (msg : String)
  | telegramMessageError (msg : String)
  | wrongAPIResponseCode (msg : String)
deriving DecidableEq, Repr

/-- Python `str` of an exception instance (for `KeyError` this is the
repr of the missing key, as CPython renders it). -/
def pyExcStr : PyExc → String
  | .typeError m => m
  | .keyError k => "\x27" ++ k ++ "\x27"
  | .valueError m => m
  | .attributeError m => m
  | .connectionError m => m
  | .requestException m => m
  | .telegramError m => m
  | .emptyAPIResponse m => m
  | .telegramMessageError m => m
  | .wrongAPIResponseCode m => m

/-- Seconds slept between cycles (`RETRY_TIME` of the source). -/
def RETRY_TIME : Nat := 600

/-- The fixed API endpoint URL (`ENDPOINT` of the source). -/
def ENDPOINT : String := "https://practicum.yandex.ru/api/user_api/homework_statuses/"

/-- Source constant `HOMEWORK_STATUSES`: status code to verdict sentence. -/
def HOMEWORK_STATUSES : List (String × String) :=
  [("approved", "Работа проверена: ревьюеру всё понравилось. Ура!"),
   ("reviewing", "Работа взята на проверку ревьюером."),
   ("rejected", "Работа проверена: у ревьюера есть замечания.")]

/-- Python `str(x)` for an optional environment string (`None` prints as
`None` inside an f-string). -/
def optStr : Option String → String
  | none => "None"
  | some s => s

/-- Python truthiness of an optional environment string: `None` and the
empty string are falsy. -/
def truthyOpt : Option String → Bool
  | none => false
  | some s => s ≠ ""

/-- Source function `send_message(bot, message)`.  The transport call
`bot.send_message(TELEGRAM_CHAT_ID, message)` is modelled by its outcome:
`none` means it returned, `some err` means it raised `TelegramError(err)`.
In the latter case the function re-raises `TelegramMessageError` with the
source's wording (including its doubled-letter typo). -/
def send_message (outcome : Option String) : Except PyExc Unit :=
  match outcome with
  | none => .ok ()
  | some err => .error (.telegramMessageError ("Ошибка отправки соообщения: " ++ err))

/-- An HTTP response as seen by `get_api_answer` (status line, body text,
parsed JSON body). -/
structure HttpResponse where
  status_code : Nat
  reason : String
  text : String
  body : JVal
deriving Repr

/-- The `headers` dict of the source: `Authorization: OAuth <token>`. -/
def headersJVal (practicum_token : Option String) : JVal :=
  .dict [("Authorization", .str ("OAuth " ++ optStr practicum_token))]

/-- Source function `get_api_answer(current_timestamp)`.  The call
`requests.get(**request_params)` is modelled by its outcome `transport`
(`.ok` a response, `.error` the exception it raised — transport failures
are `requestException`).  `now` stands for `int(time.time())`, used when
`current_timestamp` is falsy.  Note the source's `except` clause around
`requests.get` catches only `WrongAPIResponseCodeError`: any other
exception from the transport passes through unchanged. -/
def get_api_answer (practicum_token : Option String) (now : Int)
    (transport : Except PyExc HttpResponse) (current_timestamp : JVal) :
    Except PyExc JVal :=
  let timestamp := if truthyJ current_timestamp then current_timestamp else .int now
  let params : JVal := .dict [("from_date", timestamp)]
  let request_params : JVal :=
    .dict [("url", .str ENDPOINT), ("headers", headersJVal practicum_token),
           ("params", params)]
  match transport with
  | .error e =>
    match e with
    | .wrongAPIResponseCode msg =>
      .error (.connectionError
        ("Во время подключения к " ++ ENDPOINT ++ " произошла непредвиденная ошибка: "
          ++ msg ++ " headers = " ++ pyStr (headersJVal practicum_token)
          ++ "; params = " ++ pyStr params ++ ";"))
    | other => .error other
  | .ok response =>
    if response.status_code ≠ 200 then
      .error (.wrongAPIResponseCode
        ("Ответ сервера не успешный: params = " ++ pyStr request_params
          ++ "; http_code = " ++ toString response.status_code
          ++ "; reason = " ++ response.reason ++ "; content = " ++ response.text))
    else .ok response.body

/-- Source function `check_response(response)`.  Mirrors the source's order
of operations: the subscript `response[homeworks-key]` on line 97 runs
before the missing-key check on line 99, so a dict without that key
raises a bare `KeyError` and the `EmptyAPIResponseError` branch can only
fire for a missing `current_date`. -/
def check_response (response : JVal) : Except PyExc (List JVal) :=
  match response with
  | .dict kvs =>
    match lookupKey kvs "homeworks" with
    | none => .error (.keyError "homeworks")
    | some homeworks =>
      if (lookupKey kvs "homeworks").isNone || (lookupKey kvs "current_date").isNone then
        .error (.emptyAPIResponse
          ("В ответе API отсутствуют необходимые ключи \"homeworks\" и/или"
            ++ " \"current_date\", response = " ++ pyStr response ++ "."))
      else
        match homeworks with
        | .list hs => .ok hs
        | _ => .error (.keyError
            ("В ответе, под ключом \"homeworks\" пришёл не список"
              ++ " response = " ++ pyStr response ++ "."))
  | _ => .error (.typeError ("Ответ API не словарь: response = " ++ pyStr response ++ "."))

/-- Source function `parse_status(homework)`.  As in the source, the
subscript `homework[homework_name-key]` runs before the membership check
(which therefore can never fire), then `homework[status-key]` is read and
looked up in `HOMEWORK_STATUSES`; an unknown status raises `ValueError`,
an unhashable status value raises `TypeError` from the `in` test. -/
def parse_status (homework : JVal) : Except PyExc String :=
  match homework with
  | .dict kvs =>
    match lookupKey kvs "homework_name" with
    | none => .error (.keyError "homework_name")
    | some homework_name =>
      match lookupKey kvs "status" with
      | none => .error (.keyError "status")
      | some homework_status =>
        match homework_status with
        | .str s =>
          match lookupKey HOMEWORK_STATUSES s with
          | some verdict =>
            .ok ("Изменился статус проверки работы \"" ++ pyStr homework_name
                  ++ "\". " ++ verdict)
          | none => .error (.valueError
              ("В ответе от API пришел неизвестный статус работы, status = " ++ s ++ "."))
        | .int n => .error (.valueError
            ("В ответе от API пришел неизвестный статус работы, status = "
              ++ toString n ++ "."))
        | bad => .error (.typeError ("unhashable type: " ++ pyRepr bad))
  | bad => .error (.typeError ("value " ++ pyRepr bad ++ " is not subscriptable"))

/-- Source function `check_tokens()`: returns `True` when `PRACTICUM_TOKEN`
and `TELEGRAM_TOKEN` are truthy (set and non-empty) and `TELEGRAM_CHAT_ID`
`is not None`; otherwise falls through and returns `None` (modelled as
`Option Bool`, `none` = Python `None`). The `try` body cannot raise. -/
def check_tokens (practicum_token telegram_token telegram_chat_id : Option String) :
    Option Bool :=
  if truthyOpt practicum_token && truthyOpt telegram_token
      && telegram_chat_id.isSome then
    some true
  else
    none

/-- The startup gate of `main` (lines 151—158): the process proceeds past
`if not check_tokens()` exactly when `check_tokens` returned `True`;
otherwise `sys.exit` stops it. -/
def startup_proceeds (practicum_token telegram_token telegram_chat_id : Option String) :
    Bool :=
  match check_tokens practicum_token telegram_token telegram_chat_id with
  | some b => b
  | none => false

/-- The `current_report` / `prev_report` dict of `main`
(`\x7b'name': ..., 'output': ...\x7d`): `name` is whatever value
`new_homeworks[0]['homework_name']` held (any `JVal`), `output` is always
assigned a string. -/
structure Report where
  name : JVal
  output : String
deriving DecidableEq, Repr

/-- The report dict as the `JVal` that line 190 passes to `send_message`
(insertion order of line 163: `name` then `output`). -/
def reportToJVal (r : Report) : JVal :=
  .dict [("name", r.name), ("output", .str r.output)]

/-- The mutable state `main` carries across cycles: `current_timestamp`
(a `JVal`, since line 171 stores whatever `current_date` held),
`current_report` and `prev_report`. -/
structure LoopState where
  cursor : JVal
  current : Report
  prev : Report
deriving DecidableEq, Repr

/-- The state at loop entry: `cursor = int(time.time())`, both reports
`\x7b'name': '', 'output': ''\x7d` (lines 161—164). -/
def initState (t0 : Int) : LoopState :=
  ⟨.int t0, ⟨.str "", ""⟩, ⟨.str "", ""⟩⟩

/-- One recorded Notifier invocation: the value passed to `send_message`,
plus (ghost observation) `current_report` and `prev_report` at the moment
of the call, and whether the call came from the failure branch. -/
structure SendEvent where
  msg : JVal
  cur : Report
  prevR : Report
  alert : Bool
deriving DecidableEq, Repr

/-- The external outcomes one cycle consumes: the result of
`get_api_answer` and the outcomes of the successive
`bot.send_message` transport calls (consumed head first; an exhausted
list means the delivery succeeds). -/
structure CycleInput where
  fetch : Except PyExc JVal
  sends : List (Option String)
deriving Repr

/-- What one cycle produces: the next loop state, the Notifier
invocations in order, how many times `parse_status` ran, which exception
the `except` clause caught (if any), and the exception escaping the whole
cycle (if any — such an exception ends `main`). -/
structure CycleOutput where
  state : LoopState
  sent : List SendEvent
  parseCalls : Nat
  caught : Option PyExc
  escaped : Option PyExc
deriving Repr

/-- Result of the `try` body up to the comparison (lines 168—180):
either the updated state (plus how often `parse_status` ran), or the
exception it raised together with the state already mutated by then. -/
inductive TryOutcome where
  | success (st : LoopState) (parseCalls : Nat)
  | failure (e : PyExc) (st : LoopState) (parseCalls : Nat)
deriving Repr

/-- The empty-list message of lines 177—180 (the two adjacent string
literals concatenate; `current_timestamp` is interpolated by `str`). -/
def noHomeworkMsg (cursor : JVal) : String :=
  "За период от " ++ pyStr cursor ++ " до настоящего момента домашних работ нет."

/-- The failure-branch log message of line 187:
`f'Сбой в работе программы: \x7berror\x7d'`. -/
def malfunctionMsg (e : PyExc) : String :=
  "Сбой в работе программы: " ++ pyExcStr e

/-- Lines 168—180 of `main`: fetch, advance the cursor via
`response.get('current_date', current_timestamp)` (an `AttributeError`
if the body is not a dict), validate, then either set both report fields
from the first homework (the `name` assignment on line 174 happens before
`parse_status` and sticks even if `parse_status` then raises) or set
`output` to the no-homework message. -/
def tryBody (fetch : Except PyExc JVal) (st : LoopState) : TryOutcome :=
  match fetch with
  | .error e => .failure e st 0
  | .ok response =>
    match response with
    | .dict kvs =>
      let st2 := { st with cursor := (lookupKey kvs "current_date").getD st.cursor }
      match check_response (.dict kvs) with
      | .error e => .failure e st2 0
      | .ok [] =>
        .success { st2 with current := { st2.current with output := noHomeworkMsg st2.cursor } } 0
      | .ok (hw0 :: _) =>
        match hw0 with
        | .dict hkvs =>
          match lookupKey hkvs "homework_name" with
          | none => .failure (.keyError "homework_name") st2 0
          | some nm =>
            let st3 := { st2 with current := { st2.current with name := nm } }
            match parse_status hw0 with
            | .error e => .failure e st3 1
            | .ok out =>
              .success { st3 with current := { st3.current with output := out } } 1
        | bad => .failure (.typeError ("value " ++ pyRepr bad ++ " is not subscriptable")) st2 0
    | bad => .failure (.attributeError ("object " ++ pyRepr bad ++ " has no attribute get")) st 0

/-- The transport outcome the next `bot.send_message` call meets (head of
the outcome list; an exhausted list means success). -/
def headSend : List (Option String) → Option String
  | [] => none
  | o :: _ => o

/-- Lines 186—191 of `main`: the `except Exception` handler.  It logs the
malfunction message, and only when `current_report != prev_report` calls
`send_message(bot, current_report)` — forwarding the report dict itself.
On delivery success it commits `prev_report = current_report.copy()`; a
delivery failure is raised inside the handler, so it escapes the cycle. -/
def exceptBranch (e : PyExc) (st : LoopState) (sent : List SendEvent)
    (parseCalls : Nat) (sends : List (Option String)) : CycleOutput :=
  if st.current = st.prev then
    ⟨st, sent, parseCalls, some e, none⟩
  else
    let ev : SendEvent := ⟨reportToJVal st.current, st.current, st.prev, true⟩
    match send_message (headSend sends) with
    | .ok _ => ⟨{ st with prev := st.current }, sent ++ [ev], parseCalls, some e, none⟩
    | .error e2 => ⟨st, sent ++ [ev], parseCalls, some e, some e2⟩

/-- Lines 181—185 of `main`: compare `current_report` with `prev_report`;
if they differ, `send_message(bot, current_report['output'])` and on
success commit `prev_report = current_report.copy()`; a raised delivery
error falls into the `except` handler with the next transport outcome. -/
def compareAndSend (st : LoopState) (sent : List SendEvent)
    (parseCalls : Nat) (sends : List (Option String)) : CycleOutput :=
  if st.current = st.prev then
    ⟨st, sent, parseCalls, none, none⟩
  else
    let ev : SendEvent := ⟨.str st.current.output, st.current, st.prev, false⟩
    match send_message (headSend sends) with
    | .ok _ => ⟨{ st with prev := st.current }, sent ++ [ev], parseCalls, none, none⟩
    | .error e2 => exceptBranch e2 st (sent ++ [ev]) parseCalls sends.tail

/-- One full iteration of the `while True` loop of `main` (lines
166—193), minus the unconditional `time.sleep(RETRY_TIME)` of the
`finally` clause, which carries no state. -/
def runCycle (input : CycleInput) (st : LoopState) : CycleOutput :=
  match tryBody input.fetch st with
  | .success st2 parseCalls => compareAndSend st2 [] parseCalls input.sends
  | .failure e st2 parseCalls => exceptBranch e st2 [] parseCalls input.sends

/-- A homework record as the spec's data model demands: a dict with a
`homework_name` field and a `status` drawn from the closed
`HOMEWORK_STATUSES` set. -/
def validRecord : JVal → Bool
  | .dict kvs =>
    (lookupKey kvs "homework_name").isSome
      && (match lookupKey kvs "status" with
          | some (.str s) => (lookupKey HOMEWORK_STATUSES s).isSome
          | _ => false)
  | _ => false

/-- A well-formed `APIResponse` payload per the spec's data model: a dict
whose `homeworks` is a list of valid records and whose `current_date` is
an integer timestamp. -/
def wellFormed : JVal → Bool
  | .dict kvs =>
    (match lookupKey kvs "homeworks" with
      | some (.list hs) => hs.all validRecord
      | _ => false)
      && (match lookupKey kvs "current_date" with
          | some (.int _) => true
          | _ => false)
  | _ => false

/-- The loop state a try-body outcome carries (reached state in either
case). -/
def TryOutcome.state : TryOutcome → LoopState
  | .success st _ => st
  | .failure _ st _ => st

/-- How many times `parse_status` ran during the try body. -/
def TryOutcome.calls : TryOutcome → Nat
  | .success _ n => n
  | .failure _ _ n => n

theorem append_ne_empty_left (a b : String) (h : a.data ≠ []) : a ++ b ≠ "" := by
  intro hc
  apply h
  have hd := congrArg String.data hc
  simp [String.data_append] at hd
  exact hd.1

theorem exceptBranch_mem_sent (e : PyExc) (st : LoopState) (sent : List SendEvent)
    (pc : Nat) (sends : List (Option String)) (ev : SendEvent)
    (h : ev ∈ (exceptBranch e st sent pc sends).sent) :
    ev ∈ sent ∨ ev.cur ≠ ev.prevR := by
  unfold exceptBranch at h
  by_cases hc : st.current = st.prev
  · simp [hc] at h
    exact Or.inl h
  · cases hd : headSend sends with
    | none =>
      simp [hc, hd, send_message] at h
      rcases h with h | h
      · exact Or.inl h
      · subst h; exact Or.inr hc
    | some err =>
      simp [hc, hd, send_message] at h
      rcases h with h | h
      · exact Or.inl h
      · subst h; exact Or.inr hc

theorem compareAndSend_mem_sent (st : LoopState) (sent : List SendEvent)
    (pc : Nat) (sends : List (Option String)) (ev : SendEvent)
    (h : ev ∈ (compareAndSend st sent pc sends).sent) :
    ev ∈ sent ∨ ev.cur ≠ ev.prevR := by
  unfold compareAndSend at h
  by_cases hc : st.current = st.prev
  · simp [hc] at h
    exact Or.inl h
  · cases hd : headSend sends with
    | none =>
      simp [hc, hd, send_message] at h
      rcases h with h | h
      · exact Or.inl h
      · subst h; exact Or.inr hc
    | some err =>
      simp [hc, hd, send_message] at h
      rcases exceptBranch_mem_sent _ _ _ _ _ _ h with h | h
      · simp at h
        rcases h with h | h
        · exact Or.inl h
        · subst h; exact Or.inr hc
      · exact Or.inr h

theorem exceptBranch_escaped_shape (e : PyExc) (st : LoopState) (sent : List SendEvent)
    (pc : Nat) (sends : List (Option String)) :
    (exceptBranch e st sent pc sends).escaped = none ∨
    ∃ s, (exceptBranch e st sent pc sends).escaped
          = some (.telegramMessageError ("Ошибка отправки соообщения: " ++ s)) := by
  unfold exceptBranch
  by_cases hc : st.current = st.prev
  · simp [hc]
  · cases hd : headSend sends with
    | none => simp [hc, hd, send_message]
    | some err =>
      right
      exact ⟨err, by simp [hc, hd, send_message]⟩

theorem exceptBranch_escaped_none (e : PyExc) (st : LoopState) (sent : List SendEvent)
    (pc : Nat) (sends : List (Option String)) (h : headSend sends = none) :
    (exceptBranch e st sent pc sends).escaped = none := by
  unfold exceptBranch
  by_cases hc : st.current = st.prev
  · simp [hc]
  · simp [hc, h, send_message]

theorem compareAndSend_escaped_shape (st : LoopState) (sent : List SendEvent)
    (pc : Nat) (sends : List (Option String)) :
    (compareAndSend st sent pc sends).escaped = none ∨
    ∃ s, (compareAndSend st sent pc sends).escaped
          = some (.telegramMessageError ("Ошибка отправки соообщения: " ++ s)) := by
  unfold compareAndSend
  by_cases hc : st.current = st.prev
  · simp [hc]
  · cases hd : headSend sends with
    | none => simp [hc, hd, send_message]
    | some err =>
      simp [hc, hd, send_message]
      exact exceptBranch_escaped_shape _ _ _ _ _

theorem compareAndSend_escaped_none (st : LoopState) (sent : List SendEvent)
    (pc : Nat) (sends : List (Option String)) (h : ∀ o ∈ sends, o = none) :
    (compareAndSend st sent pc sends).escaped = none := by
  have hh : headSend sends = none := by
    cases sends with
    | nil => rfl
    | cons o rest => exact h o (List.mem_cons_self o rest)
  unfold compareAndSend
  by_cases hc : st.current = st.prev
  · simp [hc]
  · simp [hc, hh, send_message]

theorem exceptBranch_state_current (e : PyExc) (st : LoopState) (sent : List SendEvent)
    (pc : Nat) (sends : List (Option String)) :
    (exceptBranch e st sent pc sends).state.current = st.current := by
  unfold exceptBranch
  by_cases hc : st.current = st.prev
  · simp [hc]
  · cases hd : headSend sends <;> simp [hc, hd, send_message]

theorem exceptBranch_state_cursor (e : PyExc) (st : LoopState) (sent : List SendEvent)
    (pc : Nat) (sends : List (Option String)) :
    (exceptBranch e st sent pc sends).state.cursor = st.cursor := by
  unfold exceptBranch
  by_cases hc : st.current = st.prev
  · simp [hc]
  · cases hd : headSend sends <;> simp [hc, hd, send_message]

theorem exceptBranch_parseCalls (e : PyExc) (st : LoopState) (sent : List SendEvent)
    (pc : Nat) (sends : List (Option String)) :
    (exceptBranch e st sent pc sends).parseCalls = pc := by
  unfold exceptBranch
  by_cases hc : st.current = st.prev
  · simp [hc]
  · cases hd : headSend sends <;> simp [hc, hd, send_message]

theorem compareAndSend_state_current (st : LoopState) (sent : List SendEvent)
    (pc : Nat) (sends : List (Option String)) :
    (compareAndSend st sent pc sends).state.current = st.current := by
  unfold compareAndSend
  by_cases hc : st.current = st.prev
  · simp [hc]
  · cases hd : headSend sends <;>
      simp [hc, hd, send_message, exceptBranch_state_current]

theorem compareAndSend_state_cursor (st : LoopState) (sent : List SendEvent)
    (pc : Nat) (sends : List (Option String)) :
    (compareAndSend st sent pc sends).state.cursor = st.cursor := by
  unfold compareAndSend
  by_cases hc : st.current = st.prev
  · simp [hc]
  · cases hd : headSend sends <;>
      simp [hc, hd, send_message, exceptBranch_state_cursor]

theorem compareAndSend_parseCalls (st : LoopState) (sent : List SendEvent)
    (pc : Nat) (sends : List (Option String)) :
    (compareAndSend st sent pc sends).parseCalls = pc := by
  unfold compareAndSend
  by_cases hc : st.current = st.prev
  · simp [hc]
  · cases hd : headSend sends <;>
      simp [hc, hd, send_message, exceptBranch_parseCalls]

theorem runCycle_state_current (input : CycleInput) (st : LoopState) :
    (runCycle input st).state.current = (tryBody input.fetch st).state.current := by
  unfold runCycle
  cases htb : tryBody input.fetch st <;>
    simp [TryOutcome.state, compareAndSend_state_current, exceptBranch_state_current]

theorem runCycle_state_cursor (input : CycleInput) (st : LoopState) :
    (runCycle input st).state.cursor = (tryBody input.fetch st).state.cursor := by
  unfold runCycle
  cases htb : tryBody input.fetch st <;>
    simp [TryOutcome.state, compareAndSend_state_cursor, exceptBranch_state_cursor]

theorem runCycle_parseCalls (input : CycleInput) (st : LoopState) :
    (runCycle input st).parseCalls = (tryBody input.fetch st).calls := by
  unfold runCycle
  cases htb : tryBody input.fetch st <;>
    simp [TryOutcome.calls, compareAndSend_parseCalls, exceptBranch_parseCalls]

theorem tryBody_error (e : PyExc) (st : LoopState) :
    tryBody (.error e) st = .failure e st 0 := rfl

theorem tryBody_state_cursor_dict (kvs : List (String × JVal)) (st : LoopState) :
    (tryBody (.ok (.dict kvs)) st).state.cursor
      = (lookupKey kvs "current_date").getD st.cursor := by
  simp only [tryBody]
  repeat' split
  all_goals simp_all [TryOutcome.state]

/-- The `current_date` entry the `.get` on line 171 would find in the
response body (none when the body is not a dict or lacks the key). -/
def responseCurrentDate : JVal → Option JVal
  | .dict kvs => lookupKey kvs "current_date"
  | _ => none

/-- The payload of end-to-end scenario 1 of the spec. -/
def payloadHw1 : JVal :=
  .dict [("homeworks",
           .list [.dict [("homework_name", .str "hw1"), ("status", .str "approved")]]),
         ("current_date", .int 1000)]

/-- The notification text scenario 1 expects. -/
def msgHw1 : String :=
  "Изменился статус проверки работы \"hw1\". Работа проверена: ревьюеру всё понравилось. Ура!"

/-- The Notifier invocation the first cycle on `payloadHw1` performs. -/
def evHw1 : SendEvent :=
  ⟨.str msgHw1, ⟨.str "hw1", msgHw1⟩, ⟨.str "", ""⟩, false⟩

/-- C1: in every cycle (success or failure branch alike), each message
delivered to the Notifier is sent at a moment when `current_report`
differs from the previously committed `prev_report` under structural
equality; when they are equal no notification goes out that cycle. -/
theorem claim_C1 (input : CycleInput) (st : LoopState) (ev : SendEvent)
    (h : ev ∈ (runCycle input st).sent) : ev.cur ≠ ev.prevR := by
  unfold runCycle at h
  cases htb : tryBody input.fetch st with
  | success st2 pc =>
    rw [htb] at h
    rcases compareAndSend_mem_sent _ _ _ _ _ h with h | h
    · cases h
    · exact h
  | failure e st2 pc =>
    rw [htb] at h
    rcases exceptBranch_mem_sent _ _ _ _ _ _ h with h | h
    · cases h
    · exact h

theorem claim_C1_witness :
    evHw1 ∈ (runCycle ⟨.ok payloadHw1, []⟩ (initState 500)).sent ∧
    evHw1.cur ≠ evHw1.prevR :=
  ⟨by decide, claim_C1 ⟨.ok payloadHw1, []⟩ (initState 500) evHw1 (by decide)⟩

/-- C9: after a successful fetch the cursor becomes the response's
`current_date` when present and keeps its prior value when absent; after
a failed fetch the cursor is unchanged. -/
theorem claim_C9 (input : CycleInput) (st : LoopState) :
    (∀ v d, input.fetch = .ok v → responseCurrentDate v = some d →
      (runCycle input st).state.cursor = d) ∧
    (∀ v, input.fetch = .ok v → responseCurrentDate v = none →
      (runCycle input st).state.cursor = st.cursor) ∧
    (∀ e, input.fetch = .error e →
      (runCycle input st).state.cursor = st.cursor) := by
  refine ⟨?_, ?_, ?_⟩
  · intro v d hf hd
    rw [runCycle_state_cursor, hf]
    cases v with
    | dict kvs =>
      rw [tryBody_state_cursor_dict]
      simp [responseCurrentDate] at hd
      simp [hd]
    | str s => simp [responseCurrentDate] at hd
    | int n => simp [responseCurrentDate] at hd
    | list xs => simp [responseCurrentDate] at hd
  · intro v hf hd
    rw [runCycle_state_cursor, hf]
    cases v with
    | dict kvs =>
      rw [tryBody_state_cursor_dict]
      simp [responseCurrentDate] at hd
      simp [hd]
    | str s => rfl
    | int n => rfl
    | list xs => rfl
  · intro e hf
    rw [runCycle_state_cursor, hf, tryBody_error]
    rfl

theorem claim_C9_witness :
    (runCycle ⟨.ok payloadHw1, []⟩ (initState 500)).state.cursor = .int 1000 :=
  (claim_C9 ⟨.ok payloadHw1, []⟩ (initState 500)).1 payloadHw1 (.int 1000) rfl rfl

/-- C10: `check_tokens` returns `True` when both tokens are truthy and
the chat id is any non-`None` string — the empty string included, so
startup proceeds with an empty chat identifier — and returns `None`
(falsy) whenever a token is unset or empty or the chat id is `None`. -/
theorem claim_C10 :
    (∀ p t, p ≠ "" → t ≠ "" →
      check_tokens (some p) (some t) (some "") = some true ∧
      startup_proceeds (some p) (some t) (some "") = true) ∧
    (∀ p t c, (p = none ∨ p = some "" ∨ t = none ∨ t = some "" ∨ c = none) →
      check_tokens p t c = none) := by
  constructor
  · intro p t hp ht
    constructor
    · simp [check_tokens, truthyOpt, hp, ht]
    · simp [startup_proceeds, check_tokens, truthyOpt, hp, ht]
  · intro p t c h
    rcases h with h | h | h | h | h <;> subst h <;>
      simp [check_tokens, truthyOpt]

theorem claim_C10_witness :
    check_tokens (some "a") (some "b") (some "") = some true ∧
    check_tokens none (some "b") (some "c") = none :=
  ⟨(claim_C10.1 "a" "b" (by decide) (by decide)).1,
   claim_C10.2 none (some "b") (some "c") (Or.inl rfl)⟩

theorem data_append_ne_nil_left (a b : String) (h : a.data ≠ []) :
    (a ++ b).data ≠ [] := by
  rw [String.data_append]
  intro hx
  exact h (List.append_eq_nil.mp hx).1

theorem noHomeworkMsg_ne_empty (c : JVal) : noHomeworkMsg c ≠ "" := by
  unfold noHomeworkMsg
  apply append_ne_empty_left
  apply data_append_ne_nil_left
  decide

theorem statusMsg_ne_empty (nm : JVal) (verdict : String) :
    ("Изменился статус проверки работы \"" ++ pyStr nm ++ "\". " ++ verdict) ≠ "" := by
  apply append_ne_empty_left
  apply data_append_ne_nil_left
  apply data_append_ne_nil_left
  decide

theorem report_ne_of_output_ne (n1 n2 : JVal) (o1 o2 : String) (h : o1 ≠ o2) :
    (⟨n1, o1⟩ : Report) ≠ ⟨n2, o2⟩ := by
  intro hc
  simp [Report.mk.injEq] at hc
  exact h hc.2

theorem runCycle_success (input : CycleInput) (st st2 : LoopState) (pc : Nat)
    (h : tryBody input.fetch st = .success st2 pc) :
    runCycle input st = compareAndSend st2 [] pc input.sends := by
  unfold runCycle
  rw [h]

theorem runCycle_failure (input : CycleInput) (st st2 : LoopState) (e : PyExc)
    (pc : Nat) (h : tryBody input.fetch st = .failure e st2 pc) :
    runCycle input st = exceptBranch e st2 [] pc input.sends := by
  unfold runCycle
  rw [h]

theorem compareAndSend_empty_sends (st : LoopState) (sent : List SendEvent) (pc : Nat) :
    compareAndSend st sent pc [] =
      if st.current = st.prev then ⟨st, sent, pc, none, none⟩
      else ⟨⟨st.cursor, st.current, st.current⟩,
            sent ++ [⟨.str st.current.output, st.current, st.prev, false⟩],
            pc, none, none⟩ := by
  unfold compareAndSend
  by_cases hc : st.current = st.prev <;> simp [hc, headSend, send_message]

theorem tryBody_empty_list (kvs : List (String × JVal)) (st : LoopState) (d : JVal)
    (hh : lookupKey kvs "homeworks" = some (.list []))
    (hc : lookupKey kvs "current_date" = some d) :
    tryBody (.ok (.dict kvs)) st
      = .success ⟨d, ⟨st.current.name, noHomeworkMsg d⟩, st.prev⟩ 0 := by
  simp only [tryBody, check_response, hh, hc]
  simp

theorem tryBody_first_record (kvs hkvs : List (String × JVal)) (rest : List JVal)
    (st : LoopState) (d nm : JVal) (s verdict : String)
    (hh : lookupKey kvs "homeworks" = some (.list (.dict hkvs :: rest)))
    (hc : lookupKey kvs "current_date" = some d)
    (hn : lookupKey hkvs "homework_name" = some nm)
    (hs : lookupKey hkvs "status" = some (.str s))
    (hv : lookupKey HOMEWORK_STATUSES s = some verdict) :
    tryBody (.ok (.dict kvs)) st
      = .success ⟨d, ⟨nm, "Изменился статус проверки работы \"" ++ pyStr nm
                            ++ "\". " ++ verdict⟩, st.prev⟩ 1 := by
  simp only [tryBody, check_response, parse_status, hh, hc, hn, hs, hv]
  simp [hn, hs, hv]

/-- C8: a cycle whose validated homework list is empty sets
`current_report.output` to the no-homework message built from the (just
advanced) cursor, never calls `parse_status`, and leaves
`current_report.name` unchanged. -/
theorem claim_C8 (kvs : List (String × JVal)) (d : JVal) (st : LoopState)
    (sends : List (Option String))
    (hh : lookupKey kvs "homeworks" = some (.list []))
    (hc : lookupKey kvs "current_date" = some d) :
    (runCycle ⟨.ok (.dict kvs), sends⟩ st).state.current.output = noHomeworkMsg d ∧
    (runCycle ⟨.ok (.dict kvs), sends⟩ st).state.current.name = st.current.name ∧
    (runCycle ⟨.ok (.dict kvs), sends⟩ st).parseCalls = 0 := by
  have t1 := tryBody_empty_list kvs st d hh hc
  refine ⟨?_, ?_, ?_⟩
  · rw [runCycle_state_current]
    rw [show (⟨.ok (.dict kvs), sends⟩ : CycleInput).fetch = .ok (.dict kvs) from rfl, t1]
    rfl
  · rw [runCycle_state_current]
    rw [show (⟨.ok (.dict kvs), sends⟩ : CycleInput).fetch = .ok (.dict kvs) from rfl, t1]
    rfl
  · rw [runCycle_parseCalls]
    rw [show (⟨.ok (.dict kvs), sends⟩ : CycleInput).fetch = .ok (.dict kvs) from rfl, t1]
    rfl

theorem claim_C8_witness :
    (runCycle ⟨.ok (.dict [("homeworks", .list []), ("current_date", .int 2000)]), []⟩
        (initState 500)).state.current.output = noHomeworkMsg (.int 2000) ∧
    (runCycle ⟨.ok (.dict [("homeworks", .list []), ("current_date", .int 2000)]), []⟩
        (initState 500)).state.current.name = (initState 500).current.name ∧
    (runCycle ⟨.ok (.dict [("homeworks", .list []), ("current_date", .int 2000)]), []⟩
        (initState 500)).parseCalls = 0 :=
  claim_C8 [("homeworks", .list []), ("current_date", .int 2000)] (.int 2000)
    (initState 500) [] rfl rfl

theorem runCycle_char (kvs : List (String × JVal)) (d : JVal) (f : JVal → Report)
    (pc : Nat)
    (hf : ∀ s : LoopState, tryBody (.ok (.dict kvs)) s
            = .success ⟨d, f s.current.name, s.prev⟩ pc)
    (st : LoopState) :
    runCycle ⟨.ok (.dict kvs), []⟩ st =
      if f st.current.name = st.prev then
        ⟨⟨d, f st.current.name, st.prev⟩, [], pc, none, none⟩
      else
        ⟨⟨d, f st.current.name, f st.current.name⟩,
         [⟨.str (f st.current.name).output, f st.current.name, st.prev, false⟩],
         pc, none, none⟩ := by
  have r1 := runCycle_success ⟨.ok (.dict kvs), []⟩ st _ _ (hf st)
  rw [r1, compareAndSend_empty_sends]
  by_cases hc : f st.current.name = st.prev
  · simp [hc]
  · simp [hc]

/-- C6: feeding the loop the same well-formed `APIResponse` payload on
two consecutive cycles (deliveries succeeding) produces exactly one
Notifier invocation on the first cycle and none on the second. -/
theorem claim_C6 (j : JVal) (t0 : Int) (h : wellFormed j = true) :
    (runCycle ⟨.ok j, []⟩ (initState t0)).sent.length = 1 ∧
    (runCycle ⟨.ok j, []⟩
        (runCycle ⟨.ok j, []⟩ (initState t0)).state).sent.length = 0 := by
  cases j with
  | str s => simp [wellFormed] at h
  | int n => simp [wellFormed] at h
  | list xs => simp [wellFormed] at h
  | dict kvs =>
    simp only [wellFormed, Bool.and_eq_true] at h
    obtain ⟨h1, h2⟩ := h
    cases hh : lookupKey kvs "homeworks" with
    | none => rw [hh] at h1; simp at h1
    | some v =>
      rw [hh] at h1
      cases v with
      | str s2 => simp at h1
      | int n2 => simp at h1
      | dict kvs2 => simp at h1
      | list hs =>
        cases hcd : lookupKey kvs "current_date" with
        | none => rw [hcd] at h2; simp at h2
        | some w =>
          rw [hcd] at h2
          cases w with
          | str s3 => simp at h2
          | list l3 => simp at h2
          | dict kd3 => simp at h2
          | int d =>
            cases hs with
            | nil =>
              have hchar := runCycle_char kvs (.int d)
                (fun nm => ⟨nm, noHomeworkMsg (.int d)⟩) 0
                (fun s => tryBody_empty_list kvs s (.int d) hh hcd)
              rw [hchar (initState t0)]
              constructor
              · split
                · next heq =>
                  exact absurd (congrArg Report.output heq)
                    (noHomeworkMsg_ne_empty (.int d))
                · simp
              · split
                · next heq =>
                  exact absurd (congrArg Report.output heq)
                    (noHomeworkMsg_ne_empty (.int d))
                · rw [hchar _]
                  split
                  · next => simp
                  · next hneq => exact absurd rfl hneq
            | cons hw0 rest =>
              have hv0 : validRecord hw0 = true := by
                simp [List.all_cons] at h1
                exact h1.1
              cases hw0 with
              | str s4 => simp [validRecord] at hv0
              | int n4 => simp [validRecord] at hv0
              | list l4 => simp [validRecord] at hv0
              | dict hkvs =>
                simp only [validRecord, Bool.and_eq_true] at hv0
                obtain ⟨hv1, hv2⟩ := hv0
                cases hn : lookupKey hkvs "homework_name" with
                | none => rw [hn] at hv1; simp at hv1
                | some nm =>
                  cases hst : lookupKey hkvs "status" with
                  | none => rw [hst] at hv2; simp at hv2
                  | some w2 =>
                    rw [hst] at hv2
                    cases w2 with
                    | int n5 => simp at hv2
                    | list l5 => simp at hv2
                    | dict kd5 => simp at hv2
                    | str s =>
                      simp at hv2
                      cases hvv : lookupKey HOMEWORK_STATUSES s with
                      | none => rw [hvv] at hv2; simp at hv2
                      | some verdict =>
                        have hchar := runCycle_char kvs (.int d)
                          (fun _ => ⟨nm, "Изменился статус проверки работы \""
                                          ++ pyStr nm ++ "\". " ++ verdict⟩) 1
                          (fun st => tryBody_first_record kvs hkvs rest st
                            (.int d) nm s verdict hh hcd hn hst hvv)
                        rw [hchar (initState t0)]
                        constructor
                        · split
                          · next heq =>
                            exact absurd (congrArg Report.output heq)
                              (statusMsg_ne_empty nm verdict)
                          · simp
                        · split
                          · next heq =>
                            exact absurd (congrArg Report.output heq)
                              (statusMsg_ne_empty nm verdict)
                          · rw [hchar _]
                            split
                            · next => simp
                            · next hneq => exact absurd rfl hneq

theorem claim_C6_witness :
    wellFormed payloadHw1 = true ∧
    (runCycle ⟨.ok payloadHw1, []⟩ (initState 500)).sent.length = 1 ∧
    (runCycle ⟨.ok payloadHw1, []⟩
        (runCycle ⟨.ok payloadHw1, []⟩ (initState 500)).state).sent.length = 0 :=
  ⟨rfl, claim_C6 payloadHw1 500 rfl⟩

/-- C7: scenario 1 — on payload
`homeworks = [hw1 approved], current_date = 1000` the Notifier receives
exactly the approved-verdict string for `hw1` and the cursor becomes
`1000`. -/
theorem claim_C7 :
    (runCycle ⟨.ok payloadHw1, []⟩ (initState 500)).sent.map SendEvent.msg
      = [.str msgHw1] ∧
    (runCycle ⟨.ok payloadHw1, []⟩ (initState 500)).state.cursor = .int 1000 :=
  ⟨rfl, rfl⟩

/-- C2 (amended): every exception raised inside the try body of a cycle
is caught and the loop continues; the only exception that can escape a
cycle (ending `main`) is a `TelegramMessageError` from a failed delivery
of the failure-branch alert, which — contrary to the claim — is not
swallowed. -/
theorem claim_C2_amended (input : CycleInput) (st : LoopState) :
    ((∀ o ∈ input.sends, o = none) → (runCycle input st).escaped = none) ∧
    (∀ e, (runCycle input st).escaped = some e →
      ∃ s, e = .telegramMessageError ("Ошибка отправки соообщения: " ++ s)) := by
  constructor
  · intro hall
    unfold runCycle
    cases htb : tryBody input.fetch st with
    | success st2 pc => exact compareAndSend_escaped_none _ _ _ _ hall
    | failure e st2 pc =>
      apply exceptBranch_escaped_none
      cases hsd : input.sends with
      | nil => rfl
      | cons o rest =>
        have ho : o = none := hall o (by rw [hsd]; exact List.mem_cons_self o rest)
        rw [ho]
        rfl
  · intro e he
    unfold runCycle at he
    cases htb : tryBody input.fetch st with
    | success st2 pc =>
      rw [htb] at he
      rcases compareAndSend_escaped_shape st2 [] pc input.sends with hsh | ⟨s, hsh⟩
      · rw [hsh] at he; cases he
      · rw [hsh] at he; exact ⟨s, (Option.some.inj he).symm⟩
    | failure e2 st2 pc =>
      rw [htb] at he
      rcases exceptBranch_escaped_shape e2 st2 [] pc input.sends with hsh | ⟨s, hsh⟩
      · rw [hsh] at he; cases he
      · rw [hsh] at he; exact ⟨s, (Option.some.inj he).symm⟩

theorem claim_C2_amended_witness :
    (∀ o ∈ ([] : List (Option String)), o = none) ∧
    (runCycle ⟨.error (.requestException "timed out"), []⟩ (initState 0)).escaped
      = none :=
  ⟨by simp,
   (claim_C2_amended ⟨.error (.requestException "timed out"), []⟩ (initState 0)).1
     (by simp)⟩

/-- C2 counterexample: when the primary delivery and then the
failure-branch alert delivery both fail, the second
`TelegramMessageError` escapes the cycle — a caught-per-cycle error does
terminate the loop, refuting the claim that alert failures are
swallowed. -/
theorem claim_C2_counterexample :
    (runCycle ⟨.ok payloadHw1, [some "boom1", some "boom2"]⟩ (initState 500)).escaped
      = some (.telegramMessageError "Ошибка отправки соообщения: boom2") := rfl

theorem exceptBranch_mem_strong (e : PyExc) (st : LoopState) (sent : List SendEvent)
    (pc : Nat) (sends : List (Option String)) (ev : SendEvent)
    (h : ev ∈ (exceptBranch e st sent pc sends).sent) :
    ev ∈ sent ∨ ev = ⟨reportToJVal st.current, st.current, st.prev, true⟩ := by
  unfold exceptBranch at h
  by_cases hc : st.current = st.prev
  · simp [hc] at h
    exact Or.inl h
  · cases hd : headSend sends with
    | none =>
      simp [hc, hd, send_message] at h
      rcases h with h | h
      · exact Or.inl h
      · exact Or.inr h
    | some err =>
      simp [hc, hd, send_message] at h
      rcases h with h | h
      · exact Or.inl h
      · exact Or.inr h

theorem compareAndSend_mem_strong (st : LoopState) (sent : List SendEvent)
    (pc : Nat) (sends : List (Option String)) (ev : SendEvent)
    (h : ev ∈ (compareAndSend st sent pc sends).sent) :
    ev ∈ sent ∨ ev = ⟨.str st.current.output, st.current, st.prev, false⟩
      ∨ ev = ⟨reportToJVal st.current, st.current, st.prev, true⟩ := by
  unfold compareAndSend at h
  by_cases hc : st.current = st.prev
  · simp [hc] at h
    exact Or.inl h
  · cases hd : headSend sends with
    | none =>
      simp [hc, hd, send_message] at h
      rcases h with h | h
      · exact Or.inl h
      · exact Or.inr (Or.inl h)
    | some err =>
      simp [hc, hd, send_message] at h
      rcases exceptBranch_mem_strong _ _ _ _ _ _ h with h | h
      · simp at h
        rcases h with h | h
        · exact Or.inl h
        · exact Or.inr (Or.inl h)
      · exact Or.inr (Or.inr h)

/-- C5 (amended): whenever the failure branch does invoke the Notifier,
the value it forwards is the `current_report` mapping itself
(`reportToJVal`), not the logged malfunction string. -/
theorem claim_C5_amended (input : CycleInput) (st : LoopState) (ev : SendEvent)
    (h : ev ∈ (runCycle input st).sent) (ha : ev.alert = true) :
    ev.msg = reportToJVal ev.cur := by
  unfold runCycle at h
  cases htb : tryBody input.fetch st with
  | success st2 pc =>
    rw [htb] at h
    rcases compareAndSend_mem_strong _ _ _ _ _ h with h | h | h
    · cases h
    · subst h; cases ha
    · subst h; rfl
  | failure e st2 pc =>
    rw [htb] at h
    rcases exceptBranch_mem_strong _ _ _ _ _ _ h with h | h
    · cases h
    · subst h; rfl

/-- The failure-branch Notifier invocation of the cycle in which the
primary delivery of `msgHw1` failed. -/
def evHw1Alert : SendEvent :=
  ⟨.dict [("name", .str "hw1"), ("output", .str msgHw1)],
   ⟨.str "hw1", msgHw1⟩, ⟨.str "", ""⟩, true⟩

theorem claim_C5_amended_witness :
    evHw1Alert ∈ (runCycle ⟨.ok payloadHw1, [some "boom", none]⟩ (initState 500)).sent ∧
    evHw1Alert.alert = true ∧
    evHw1Alert.msg = reportToJVal evHw1Alert.cur :=
  ⟨by decide, rfl,
   claim_C5_amended ⟨.ok payloadHw1, [some "boom", none]⟩ (initState 500) evHw1Alert
     (by decide) rfl⟩

/-- C5 counterexample: in the cycle where the primary delivery of the
`hw1` notification fails, the handler catches the delivery error and
forwards the report dict — not the
`Сбой в работе программы: ...` malfunction string the claim (and line
187's log message) names. -/
theorem claim_C5_counterexample :
    (runCycle ⟨.ok payloadHw1, [some "boom", none]⟩ (initState 500)).sent.map
        SendEvent.msg
      = [.str msgHw1, .dict [("name", .str "hw1"), ("output", .str msgHw1)]] ∧
    (runCycle ⟨.ok payloadHw1, [some "boom", none]⟩ (initState 500)).caught
      = some (.telegramMessageError "Ошибка отправки соообщения: boom") ∧
    (JVal.dict [("name", .str "hw1"), ("output", .str msgHw1)])
      ≠ .str (malfunctionMsg (.telegramMessageError "Ошибка отправки соообщения: boom")) :=
  ⟨rfl, rfl, fun h => JVal.noConfusion h⟩

/-- C3: a response dict lacking `homeworks` fails with a bare `KeyError`
from the line-97 subscript (the `EmptyAPIResponseError` check on line 99
is unreachable for it), while a dict lacking only `current_date` does
fail with `EmptyAPIResponseError`. -/
theorem claim_C3_eval :
    check_response (.dict [("current_date", .int 1000)])
      = .error (.keyError "homeworks") ∧
    check_response (.dict [("homeworks", .list [])])
      = .error (.emptyAPIResponse
          ("В ответе API отсутствуют необходимые ключи \"homeworks\" и/или"
            ++ " \"current_date\", response = \x7b\x27homeworks\x27: []\x7d.")) :=
  ⟨rfl, rfl⟩

/-- C4: a transport-level failure of `requests.get` (here a timeout,
modelled as `requestException`) passes through `get_api_answer`
unchanged — the `except WrongAPIResponseCodeError` clause cannot match
it, so no `ConnectionError` wrapping the endpoint and parameters is
raised. -/
theorem claim_C4_eval :
    get_api_answer (some "token") 0 (.error (.requestException "Read timed out"))
        (.int 100)
      = .error (.requestException "Read timed out") := rfl

end HomeworkBot
